import Mathlib

/-!
A shallow embedding of squid's `src/security/PeerOptions.cc` (the peer-level
TLS configuration engine) together with theorems about its directive parser,
`options=` / `flags=` resolvers, version reconciliation, credential pairing,
CRL loading and trust-anchor application.

Modelling conventions, fixed once for the whole file:

* The modelled build is the OpenSSL build (`USE_OPENSSL`), against
  OpenSSL 1.0.2 headers. Macro values used below are the 1.0.2 values;
  macros that 1.0.2 defines as `0x0` (or does not define) drop their table
  entry, exactly as the `#if SSL_OP_...` guards in the source do.
* `SBuf` strings are modelled as `List Char`; C `long` bitmasks as `Nat`
  (the masks involved all fit in 32 bits; `op &= ~value` is modelled by the
  width-independent `clearBits`).
* `fatalf` (the fatal-abort primitive) is modelled by returning `none`;
  a `some` result is a normal return.
* File contents (CRL records) are abstracted as a function from the path to
  `Option (List Nat)`: `none` models an unopenable file, `some recs` the
  sequence of records the concatenated-record reader yields.
* The backend context-mutation primitives of `updateContextCa` are
  abstracted as an emitted call trace plus a failure oracle.
* `Parser::Tokenizer`, `xatoi` and `PeerOptions.h` declarations
  (`SSL_FLAG_*`, field defaults, `clear()`) live outside the given sources;
  they are modelled from the spec where noted.
-/

namespace Security

/-- A client credential entry: `cert=`/`key=` file pair (spec data model,
declared in `PeerOptions.h`). -/
structure KeyData where
  certFile : List Char
  privateKeyFile : List Char
deriving DecidableEq, Repr

/-- The boolean behaviour flags of the entity, both defaulting to true. -/
structure TlsFlags where
  tlsDefaultCa : Bool := true
  tlsNpn : Bool := true
deriving DecidableEq, Repr

/-- The configuration entity of `Security::PeerOptions`, with the fields the
given source reads and writes. -/
structure PeerOptions where
  sslOptions : List Char := []
  caDir : List Char := []
  crlFile : List Char := []
  sslCipher : List Char := []
  sslFlags : List Char := []
  sslDomain : List Char := []
  parsedOptions : Nat := 0
  parsedFlags : Nat := 0
  certs : List KeyData := []
  caFiles : List (List Char) := []
  parsedCrl : List Nat := []
  sslVersion : Int := 2
  tlsMinVersion : List Char := []
  encryptTransport : Bool := false
  flags : TlsFlags := {}
deriving DecidableEq, Repr

/-- Modelled from the spec: the freshly-created entity with every field at
its default (`PeerOptions.h` field initialisers; TLS disabled, both
behaviour flags true, legacy version code below the translation
threshold). -/
def initPeerOptions : PeerOptions := {}

/-- Modelled from the spec: `disable` "resets the entire entity to defaults
and disables TLS" (`clear()` is declared in `PeerOptions.h`, outside the
given sources). -/
def clearState : PeerOptions := initPeerOptions

/-! ## The value sub-tokenizer

Modelled from the spec: the collaborator `Parser::Tokenizer` supplies
literal-skip, radix-integer parse, character-class prefix match and
delimiter-set skip. Every operation is atomic: on failure nothing is
consumed. `skip` reports success as `some rest` / true; this is the
convention `updateTlsVersionLimits` relies on
(`tok.skip('1') && tok.skip('.') && ...`). -/

/-- Literal-skip of a whole string: `some rest` iff `pat` is a leading
piece of `cs`. -/
def skipStr : List Char → List Char → Option (List Char)
  | [], cs => some cs
  | _ :: _, [] => none
  | p :: ps, c :: cs => if p = c then skipStr ps cs else none

/-- The `",:"` delimiter set shared by the `options=` and `flags=`
grammars. -/
def isDelim (c : Char) : Bool := c = ':' ∨ c = ','

/-- The `TLS-option` character class: `"_" + ALPHA + DIGIT`. -/
def optChar (c : Char) : Bool := c = '_' ∨ c.isAlpha ∨ c.isDigit

/-- Numeric value of one base-16 digit character. -/
def hexVal (c : Char) : Option Nat :=
  if '0' ≤ c ∧ c ≤ '9' then some (c.toNat - 48)
  else if 'a' ≤ c ∧ c ≤ 'f' then some (c.toNat - 87)
  else if 'A' ≤ c ∧ c ≤ 'F' then some (c.toNat - 55)
  else none

/-- Whether a character is a base-16 digit. -/
def isHexDigitChar (c : Char) : Bool := (hexVal c).isSome

/-- Maximal run of base-16 digits, accumulating the value. -/
def takeHex : List Char → Nat → Nat × List Char
  | [], acc => (acc, [])
  | c :: cs, acc =>
    match hexVal c with
    | some d => takeHex cs (acc * 16 + d)
    | none => (acc, c :: cs)

/-- Modelled from the spec: `Tokenizer::int64(hex, 16, false)` — unsigned
base-16 integer parse with an optional `0x`/`0X` radix marker; succeeds only
when at least one digit follows, consuming nothing on failure. -/
def int64Hex (cs : List Char) : Option (Nat × List Char) :=
  match cs with
  | '0' :: x :: rest =>
    if x = 'x' ∨ x = 'X' then
      match rest with
      | r :: _ => if isHexDigitChar r then some (takeHex rest 0) else none
      | [] => none
    else some (takeHex cs 0)
  | c :: _ => if isHexDigitChar c then some (takeHex cs 0) else none
  | [] => none

/-- Character-class run (`Tokenizer::prefix` with `optChars`): the maximal
leading run of `optChar` characters and the remainder. -/
def takeClass : List Char → List Char × List Char
  | [] => ([], [])
  | c :: cs =>
    if optChar c then
      let t := takeClass cs
      (c :: t.1, t.2)
    else ([], c :: cs)

/-- Modelled from the spec: `xatoi` (declared in `Parsing.h`) — C `atoi`
semantics: optional sign, then leading decimal digits, 0 when there are
none. -/
def xatoi (cs : List Char) : Int :=
  match cs with
  | '-' :: rest => - (xatoiNat rest 0)
  | '+' :: rest => xatoiNat rest 0
  | _ => xatoiNat cs 0
where
  /-- Decimal digit run accumulator for `xatoi`. -/
  xatoiNat : List Char → Nat → Nat
    | [], acc => acc
    | c :: cs, acc => if c.isDigit then xatoiNat cs (acc * 10 + (c.toNat - 48)) else acc

/-- Clear from `op` every bit set in `v` (the C `op &= ~value` on a
fixed-width integer, stated width-independently). -/
def clearBits (op v : Nat) : Nat := op ^^^ (op &&& v)

/-! ## The backend and its static name-to-bitmask tables -/

/-- The backend-dependent data `parseOptions` consumes: the surviving
`ssl_options[]` table entries and the value of `SSL_OP_NO_SSLv2`
(0 when the backend leaves that macro undefined, matching the C `#if`). -/
structure Backend where
  optTable : List (List Char × Nat)
  noSSLv2 : Nat

/-- `SSL_OP_NO_SSLv2` (OpenSSL 1.0.2). -/
def SSL_OP_NO_SSLv2 : Nat := 0x01000000
/-- `SSL_OP_NO_SSLv3` (OpenSSL 1.0.2). -/
def SSL_OP_NO_SSLv3 : Nat := 0x02000000
/-- `SSL_OP_NO_TLSv1` (OpenSSL 1.0.2). -/
def SSL_OP_NO_TLSv1 : Nat := 0x04000000
/-- `SSL_OP_NO_TLSv1_2` (OpenSSL 1.0.2). -/
def SSL_OP_NO_TLSv1_2 : Nat := 0x08000000
/-- `SSL_OP_NO_TLSv1_1` (OpenSSL 1.0.2). -/
def SSL_OP_NO_TLSv1_1 : Nat := 0x10000000

/-- The `ssl_options[]` table of the source, in source order, for the
modelled OpenSSL 1.0.2 build. Entries whose guarding macro that build
defines as `0x0` or not at all (`NETSCAPE_REUSE_CIPHER_CHANGE_BUG`,
`SSLREF2_REUSE_CERT_TYPE_BUG`, `PKCS1_CHECK_1`, `PKCS1_CHECK_2`,
`NON_EXPORT_FIRST`) are compiled out by their `#if`, exactly as in C.
The terminating `{"", 0}` / `{NULL, 0}` sentinels are unreachable for the
non-empty names `lookupOption` is called with and are not represented. -/
def openssl102Table : List (List Char × Nat) :=
  [(("MICROSOFT_BIG_SSLV3_BUFFER").data, 0x00000020),
   (("SSLEAY_080_CLIENT_DH_BUG").data, 0x00000080),
   (("TLS_D5_BUG").data, 0x00000100),
   (("TLS_BLOCK_PADDING_BUG").data, 0x00000200),
   (("TLS_ROLLBACK_BUG").data, 0x00800000),
   (("ALL").data, 0x80000BFF),
   (("SINGLE_DH_USE").data, 0x00100000),
   (("EPHEMERAL_RSA").data, 0x00200000),
   (("NETSCAPE_CA_DN_BUG").data, 0x20000000),
   (("CIPHER_SERVER_PREFERENCE").data, 0x00400000),
   (("NETSCAPE_DEMO_CIPHER_CHANGE_BUG").data, 0x40000000),
   (("NO_SSLv3").data, SSL_OP_NO_SSLv3),
   (("NO_TLSv1").data, SSL_OP_NO_TLSv1),
   (("NO_TLSv1_1").data, SSL_OP_NO_TLSv1_1),
   (("NO_TLSv1_2").data, SSL_OP_NO_TLSv1_2),
   (("No_Compression").data, 0x00020000),
   (("NO_TICKET").data, 0x00004000),
   (("SINGLE_ECDH_USE").data, 0x00080000)]

/-- The modelled backend: OpenSSL 1.0.2, where `SSL_OP_NO_SSLv2` is a real
bit. -/
def openssl102 : Backend := ⟨openssl102Table, SSL_OP_NO_SSLv2⟩

/-- First table entry whose name equals `opt` exactly (`option.cmp(name) == 0`
in the source loop); 0 when none matches. -/
def lookupOption : List (List Char × Nat) → List Char → Nat
  | [], _ => 0
  | (name, v) :: rest, opt => if opt = name then v else lookupOption rest opt

/-! ## OptionsResolver: `parseOptions` -/

/-- The optional leading sign of an `options=` term: `-`/`!` select remove
mode (`true`), an optional `+` leaves the default add mode (`false`). -/
def readSign : List Char → Bool × List Char
  | '-' :: rest => (true, rest)
  | '!' :: rest => (true, rest)
  | '+' :: rest => (false, rest)
  | cs => (false, cs)

/-- One `do`-iteration body plus the loop control of `parseOptions`:
sign, then hex literal or named-table bareword (an unmatched or zero value
contributes nothing, recoverable), apply to the accumulator, then the
delimiter run. Trailing text that is neither a delimiter nor end-of-input
is fatal (`none`). Fuel only bounds the recursion; every continuing
iteration consumes at least one delimiter, so `length + 1` is never
exhausted. -/
def optLoop (b : Backend) : Nat → List Char → Nat → Option Nat
  | 0, _, _ => none
  | fuel + 1, cs, op =>
    let m := readSign cs
    let vr : Nat × List Char :=
      match int64Hex m.2 with
      | some (v, rest) => (v, rest)
      | none =>
        let t := takeClass m.2
        if t.1 = [] then (0, m.2) else (lookupOption b.optTable t.1, t.2)
    let op' : Nat :=
      if vr.1 = 0 then op
      else if m.1 then clearBits op vr.1 else op ||| vr.1
    match vr.2 with
    | [] => some op'
    | c :: rest2 =>
      if isDelim c then
        match (c :: rest2).dropWhile isDelim with
        | [] => some op'
        | c2 :: rest3 => optLoop b fuel (c2 :: rest3) op'
      else none

/-- `Security::PeerOptions::parseOptions()` on a given options text:
the term loop, then the unconditional RFC 6176 protocol floor. When the
backend leaves `SSL_OP_NO_SSLv2` undefined the macro is 0 and the `or`
is the identity, which models the `#if SSL_OP_NO_SSLv2` guard. -/
def parseOptions (b : Backend) (txt : List Char) : Option Nat :=
  (optLoop b (txt.length + 1) txt 0).map (fun op => op ||| b.noSSLv2)

/-! ## FlagsResolver: `parseFlags` -/

/-- `SSL_FLAG_NO_DEFAULT_CA` — modelled from the spec: the `SSL_FLAG_*`
masks are declared in `PeerOptions.h`, outside the given sources, as
distinct single bits. -/
def SSL_FLAG_NO_DEFAULT_CA : Nat := 0x01
/-- `SSL_FLAG_DELAYED_AUTH` (see `SSL_FLAG_NO_DEFAULT_CA`). -/
def SSL_FLAG_DELAYED_AUTH : Nat := 0x02
/-- `SSL_FLAG_DONT_VERIFY_PEER` (see `SSL_FLAG_NO_DEFAULT_CA`). -/
def SSL_FLAG_DONT_VERIFY_PEER : Nat := 0x04
/-- `SSL_FLAG_DONT_VERIFY_DOMAIN` (see `SSL_FLAG_NO_DEFAULT_CA`). -/
def SSL_FLAG_DONT_VERIFY_DOMAIN : Nat := 0x08
/-- `SSL_FLAG_NO_SESSION_REUSE` (see `SSL_FLAG_NO_DEFAULT_CA`). -/
def SSL_FLAG_NO_SESSION_REUSE : Nat := 0x10
/-- `SSL_FLAG_VERIFY_CRL` (see `SSL_FLAG_NO_DEFAULT_CA`). -/
def SSL_FLAG_VERIFY_CRL : Nat := 0x20
/-- `SSL_FLAG_VERIFY_CRL_ALL` (see `SSL_FLAG_NO_DEFAULT_CA`). -/
def SSL_FLAG_VERIFY_CRL_ALL : Nat := 0x40

/-- The `flagTokens[]` table in source order; `X509_V_FLAG_CRL_CHECK` is
nonzero in the modelled OpenSSL build, so the two CRL entries survive their
`#if`. The `{SBuf(), 0}` sentinel terminates the C loop and is represented
by the end of the list. -/
def flagTokens : List (List Char × Nat) :=
  [(("NO_DEFAULT_CA").data, SSL_FLAG_NO_DEFAULT_CA),
   (("DELAYED_AUTH").data, SSL_FLAG_DELAYED_AUTH),
   (("DONT_VERIFY_PEER").data, SSL_FLAG_DONT_VERIFY_PEER),
   (("DONT_VERIFY_DOMAIN").data, SSL_FLAG_DONT_VERIFY_DOMAIN),
   (("NO_SESSION_REUSE").data, SSL_FLAG_NO_SESSION_REUSE),
   (("VERIFY_CRL").data, SSL_FLAG_VERIFY_CRL),
   (("VERIFY_CRL_ALL").data, SSL_FLAG_VERIFY_CRL_ALL)]

/-- The inner `for` of `parseFlags`, exactly as written in the source:
`if (tok.skip(label) == 0) { found = mask; break; }` — i.e. it stops at the
first label that does NOT skip (whose literal-skip returns false), keeping
that label's mask, and it advances the tokenizer over every label that does
skip. Returns 0 with the final tokenizer state when every entry skipped. -/
def tryFlagLabels : List (List Char × Nat) → List Char → Nat × List Char
  | [], cs => (0, cs)
  | (label, mask) :: rest, cs =>
    match skipStr label cs with
    | none => (mask, cs)
    | some cs' => tryFlagLabels rest cs'

/-- Result of the flags resolver: the fatal abort, or the returned bitmask
together with the final `flags.tlsDefaultCa` value. -/
inductive FlagsRes where
  | fatal : FlagsRes
  | ok (fl : Nat) (defaultCa : Bool) : FlagsRes
deriving DecidableEq, Repr

/-- The `do`/`while (tok.skipOne(delims))` loop of `parseFlags`. A zero
`found` is fatal; `NO_DEFAULT_CA` clears `flags.tlsDefaultCa` instead of
contributing a bit. Fuel only bounds the recursion; every continuing
iteration consumes the skipped delimiter, so `length + 1` is never
exhausted. -/
def flagsLoop : Nat → List Char → Nat → Bool → Option FlagsRes
  | 0, _, _, _ => none
  | fuel + 1, cs, fl, ca =>
    let fr := tryFlagLabels flagTokens cs
    if fr.1 = 0 then some FlagsRes.fatal
    else
      let fl' := if fr.1 = SSL_FLAG_NO_DEFAULT_CA then fl else fl ||| fr.1
      let ca' := if fr.1 = SSL_FLAG_NO_DEFAULT_CA then false else ca
      match fr.2 with
      | [] => some (FlagsRes.ok fl' ca')
      | c :: rest => if isDelim c then flagsLoop fuel rest fl' ca' else some (FlagsRes.ok fl' ca')

/-- `Security::PeerOptions::parseFlags()` on the given `sslFlags` text,
threading the current `flags.tlsDefaultCa`: empty text returns 0 at once,
otherwise the label loop runs. -/
def parseFlags (txt : List Char) (ca : Bool) : Option FlagsRes :=
  if txt = [] then some (FlagsRes.ok 0 ca)
  else flagsLoop (txt.length + 1) txt 0 ca

/-! ## VersionReconciler: `updateTlsVersionLimits` -/

/-- The combined tokenizer test of the `tlsMinVersion` branch:
`tok.skip('1') && tok.skip('.') && tok.int64(v, 10, false, 1) && v <= 3`.
The length-limited base-10 parse examines exactly one character, so only
the first character after `1.` matters; anything after it is ignored. -/
def minVerParse : List Char → Option Nat
  | '1' :: '.' :: c :: _ =>
    if c.isDigit then
      if c.toNat - 48 ≤ 3 then some (c.toNat - 48) else none
    else none
  | _ => none

/-- The three guarded `parsedOptions |= SSL_OP_NO_TLSv1*` statements of the
minimum-version branch (all three macros are nonzero in the modelled
build). -/
def minVerBits (v : Nat) (p : Nat) : Nat :=
  let p1 := if 0 < v then p ||| SSL_OP_NO_TLSv1 else p
  let p2 := if 1 < v then p1 ||| SSL_OP_NO_TLSv1_1 else p1
  if 2 < v then p2 ||| SSL_OP_NO_TLSv1_2 else p2

/-- `Security::PeerOptions::updateTlsVersionLimits()`: a parseable
`tlsMinVersion` ORs the floor bits into `parsedOptions` (an unparseable one
logs and changes nothing); otherwise a legacy `sslVersion > 2` appends its
disable-list text to `sslOptions` (comma-separated when non-empty) and
zeroes `sslVersion`. -/
def updateTlsVersionLimits (s : PeerOptions) : PeerOptions :=
  if s.tlsMinVersion ≠ [] then
    match minVerParse s.tlsMinVersion with
    | some v => { s with parsedOptions := minVerBits v s.parsedOptions }
    | none => s
  else if 2 < s.sslVersion then
    let add : Option (List Char) :=
      if s.sslVersion = 3 then some ("NO_TLSv1,NO_TLSv1_1,NO_TLSv1_2").data
      else if s.sslVersion = 4 then some ("NO_SSLv3,NO_TLSv1_1,NO_TLSv1_2").data
      else if s.sslVersion = 5 then some ("NO_SSLv3,NO_TLSv1,NO_TLSv1_2").data
      else if s.sslVersion = 6 then some ("NO_SSLv3,NO_TLSv1,NO_TLSv1_1").data
      else none
    match add with
    | some a =>
      { s with
        sslOptions := if s.sslOptions = [] then a else s.sslOptions ++ ',' :: a,
        sslVersion := 0 }
    | none => { s with sslVersion := 0 }
  else s

/-! ## CrlLoader: `loadCrlFile` -/

/-- `Security::PeerOptions::loadCrlFile()`: clear the previously parsed
list; an empty path returns at once; an unopenable file (`fs path = none`)
logs and returns with the list still empty; otherwise every record the
concatenated-record reader yields is appended. Never fatal. -/
def loadCrlFile (fs : List Char → Option (List Nat)) (s : PeerOptions) : PeerOptions :=
  let s0 := { s with parsedCrl := ([] : List Nat) }
  if s0.crlFile = [] then s0
  else
    match fs s0.crlFile with
    | none => s0
    | some recs => { s0 with parsedCrl := recs }

/-! ## DirectiveParser: `parse` -/

/-- `strncmp(token, pat, strlen(pat)) == 0`: does `token` start with
`pat`? -/
def startsWithStr : List Char → List Char → Bool
  | [], _ => true
  | _ :: _, [] => false
  | p :: ps, c :: cs => if p = c then startsWithStr ps cs else false

/-- A filesystem with no readable files, for concrete runs that never touch
the CRL loader. -/
def noFs : List Char → Option (List Nat) := fun _ => none

/-- `Security::PeerOptions::parse(token)`: the fixed leading-`strncmp`
dispatch in source order. Every recognised directive other than `disable`
(which resets and returns) and the rejected out-of-order `key=` (which logs
and returns) finishes by setting `encryptTransport`. Unknown tokens log and
leave the entity unchanged. `none` models the fatal aborts reachable
through `parseOptions`/`parseFlags`. -/
def parse (fs : List Char → Option (List Nat)) (s : PeerOptions) (token : List Char) :
    Option PeerOptions :=
  if token.isEmpty then some { s with encryptTransport := true }
  else if startsWithStr ("disable").data token then some clearState
  else if startsWithStr ("cert=").data token then
    some { s with
           certs := s.certs ++ [⟨token.drop 5, token.drop 5⟩],
           encryptTransport := true }
  else if startsWithStr ("key=").data token then
    if s.certs = [] ∨ (s.certs.getLastD ⟨[], []⟩).certFile = [] then some s
    else
      some { s with
             certs := s.certs.dropLast
               ++ [{ s.certs.getLastD ⟨[], []⟩ with privateKeyFile := token.drop 4 }],
             encryptTransport := true }
  else if startsWithStr ("version=").data token then
    some { s with sslVersion := xatoi (token.drop 8), encryptTransport := true }
  else if startsWithStr ("min-version=").data token then
    some { s with tlsMinVersion := token.drop 12, encryptTransport := true }
  else if startsWithStr ("options=").data token then
    (parseOptions openssl102 (token.drop 8)).map fun op =>
      { s with sslOptions := token.drop 8, parsedOptions := op, encryptTransport := true }
  else if startsWithStr ("cipher=").data token then
    some { s with sslCipher := token.drop 7, encryptTransport := true }
  else if startsWithStr ("cafile=").data token then
    some { s with caFiles := s.caFiles ++ [token.drop 7], encryptTransport := true }
  else if startsWithStr ("capath=").data token then
    some { s with caDir := token.drop 7, encryptTransport := true }
  else if startsWithStr ("crlfile=").data token then
    some { loadCrlFile fs { s with crlFile := token.drop 8 } with encryptTransport := true }
  else if startsWithStr ("flags=").data token then
    match parseFlags (token.drop 6) s.flags.tlsDefaultCa with
    | some (FlagsRes.ok fl ca) =>
      some { s with
             sslFlags := token.drop 6, parsedFlags := fl,
             flags := { s.flags with tlsDefaultCa := ca },
             encryptTransport := true }
    | _ => none
  else if startsWithStr ("no-default-ca").data token then
    some { s with flags := { s.flags with tlsDefaultCa := false }, encryptTransport := true }
  else if startsWithStr ("domain=").data token then
    some { s with sslDomain := token.drop 7, encryptTransport := true }
  else if startsWithStr ("no-npn").data token then
    some { s with flags := { s.flags with tlsNpn := false }, encryptTransport := true }
  else some s

/-! ## ContextBuilder: trust-anchor application (`updateContextCa`) -/

/-- One backend trust-configuration primitive invocation, as the source
emits them: `SSL_CTX_load_verify_locations(ctx, caFile, caDir)` for each
`caFiles` entry, and `SSL_CTX_set_default_verify_paths(ctx)`. -/
inductive CaCall where
  | loadVerifyLocations (caFile : List Char) (caDir : List Char) : CaCall
  | setDefaultVerifyPaths : CaCall
deriving DecidableEq, Repr

/-- The `for (auto i : caFiles)` loop of `updateContextCa`: one
`loadVerifyLocations` call per entry, each passing `caDir` alongside the
entry; a failed call (per the oracle) is logged and the loop continues.
Returns the call trace and the number of warnings logged. -/
def caFilesLoop (fail : CaCall → Bool) (dir : List Char) :
    List (List Char) → List CaCall × Nat
  | [] => ([], 0)
  | f :: rest =>
    let c := CaCall.loadVerifyLocations f dir
    let t := caFilesLoop fail dir rest
    (c :: t.1, (if fail c then 1 else 0) + t.2)

/-- `Security::PeerOptions::updateContextCa(ctx)` as its emitted backend
call trace plus warning count: the per-`caFiles` loop, then — unless
`flags.tlsDefaultCa` is off — the system trust store, whose failure is also
only logged. -/
def updateContextCa (fail : CaCall → Bool) (s : PeerOptions) : List CaCall × Nat :=
  let t := caFilesLoop fail s.caDir s.caFiles
  if s.flags.tlsDefaultCa then
    (t.1 ++ [CaCall.setDefaultVerifyPaths],
     t.2 + (if fail CaCall.setDefaultVerifyPaths then 1 else 0))
  else t

/-- Does a trust-configuration call pass `d` as the trust directory? The
only way `caDir` can reach the backend in `updateContextCa`. -/
def usesCaDir (d : List Char) : CaCall → Bool
  | CaCall.loadVerifyLocations _ dir => dir = d
  | CaCall.setDefaultVerifyPaths => false

/-! ## Theorems -/

/-- OR-ing a mask in makes every one of its bits stick: `(a ||| v) &&& v = v`. -/
theorem lor_land_self (a v : Nat) : (a ||| v) &&& v = v := by
  apply Nat.eq_of_testBit_eq
  intro i
  rw [Nat.testBit_land, Nat.testBit_lor]
  cases h : v.testBit i <;> simp [h]

/-- C1: the claim says `parseFlags` on `DONT_VERIFY_PEER:NO_SESSION_REUSE`
returns `SSL_FLAG_DONT_VERIFY_PEER ||| SSL_FLAG_NO_SESSION_REUSE` and that
any unknown first token (`BOGUS`) hits the fatal-abort primitive. The code
instead tests `tok.skip(label) == 0`, i.e. it takes the first label whose
literal-skip FAILS as the match. On both inputs the very first table entry
(`NO_DEFAULT_CA`) fails to skip, so both runs take the deprecated-alias
path: they return mask 0 and clear `flags.tlsDefaultCa`, and neither
aborts. This theorem evaluates the embedded `parseFlags` at both failing
inputs and records that the result differs from the mask OR the spec
requires. -/
theorem C1_parseFlags_inverted_match :
    parseFlags (("DONT_VERIFY_PEER:NO_SESSION_REUSE").data) true = some (FlagsRes.ok 0 false)
    ∧ parseFlags (("BOGUS").data) true = some (FlagsRes.ok 0 false)
    ∧ FlagsRes.ok 0 false
        ≠ FlagsRes.ok (SSL_FLAG_DONT_VERIFY_PEER ||| SSL_FLAG_NO_SESSION_REUSE) true
    ∧ FlagsRes.ok 0 false ≠ FlagsRes.fatal := by
  decide

/-- C2 (amended): the cache invariant does hold at the one place that
writes it — whenever an `options=` directive parses successfully, the
resulting entity satisfies `parseOptions sslOptions = some parsedOptions`.
(The original claim extends this to every `updateTlsVersionLimits` run,
which `C2_stale_after_version_reconciliation` refutes.) -/
theorem C2_options_directive_cache (fs : List Char → Option (List Nat))
    (s : PeerOptions) (txt : List Char) (s' : PeerOptions)
    (h : parse fs s (("options=").data ++ txt) = some s') :
    parseOptions openssl102 s'.sslOptions = some s'.parsedOptions := by
  have hd : parse fs s (("options=").data ++ txt)
      = (parseOptions openssl102 txt).map fun op =>
          { s with sslOptions := txt, parsedOptions := op, encryptTransport := true } := rfl
  rw [hd] at h
  cases e : parseOptions openssl102 txt with
  | none => rw [e, Option.map_none'] at h; cases h
  | some op =>
    rw [e, Option.map_some'] at h
    obtain rfl := Option.some.inj h
    exact e

/-- The entity produced by the single directive `options=NO_TLSv1` on a
fresh entity (used to instantiate `C2_options_directive_cache`). -/
def afterOptionsNoTLSv1 : PeerOptions :=
  { initPeerOptions with
    sslOptions := ("NO_TLSv1").data
    parsedOptions := 0x05000000
    encryptTransport := true }

/-- C2 witness: the invariant after `options=NO_TLSv1`, by applying
`C2_options_directive_cache` to that concrete directive run. -/
theorem C2_options_directive_cache_witness :
    parseOptions openssl102 afterOptionsNoTLSv1.sslOptions
      = some afterOptionsNoTLSv1.parsedOptions :=
  C2_options_directive_cache noFs initPeerOptions (("NO_TLSv1").data)
    afterOptionsNoTLSv1 (by decide)

/-- C2 counterexample: after parsing `version=4` and running
`updateTlsVersionLimits` (exactly what `createClientContext` does first),
the legacy path has appended `NO_SSLv3,NO_TLSv1_1,NO_TLSv1_2` to
`sslOptions` without reparsing, so `parsedOptions` is still 0 while
`parseOptions sslOptions` is `some 0x1B000000`: the claimed invariant fails
right where the claim asserts it. -/
theorem C2_stale_after_version_reconciliation :
    (parse noFs initPeerOptions (("version=4").data)).map
        (fun s1 => ((updateTlsVersionLimits s1).parsedOptions,
                    parseOptions openssl102 (updateTlsVersionLimits s1).sslOptions))
      = some (0, some 0x1B000000)
    ∧ some (0 : Nat) ≠ some (0x1B000000 : Nat) := by
  decide

/-- C3 (amended): each `options=` directive overwrites `sslOptions` and
reparses it from scratch, so the add/remove signs act relative to a fresh
accumulator, not the previous directive's result:
`options=NO_TLSv1,NO_TLSv1_1` yields those two bits (plus the forced
`NO_SSLv2` floor); a subsequent `options=+NO_TLSv1_2` leaves exactly
`NO_TLSv1_2` plus the floor; a further `options=-NO_TLSv1` leaves exactly
the floor. -/
theorem C3_options_directive_replaces :
    (parse noFs initPeerOptions (("options=NO_TLSv1,NO_TLSv1_1").data)).map
        (fun s => s.parsedOptions)
      = some (SSL_OP_NO_TLSv1 ||| SSL_OP_NO_TLSv1_1 ||| SSL_OP_NO_SSLv2)
    ∧ ((parse noFs initPeerOptions (("options=NO_TLSv1,NO_TLSv1_1").data)).bind
        (fun s1 => parse noFs s1 (("options=+NO_TLSv1_2").data))).map
        (fun s => s.parsedOptions)
      = some (SSL_OP_NO_TLSv1_2 ||| SSL_OP_NO_SSLv2)
    ∧ (((parse noFs initPeerOptions (("options=NO_TLSv1,NO_TLSv1_1").data)).bind
        (fun s1 => parse noFs s1 (("options=+NO_TLSv1_2").data))).bind
        (fun s2 => parse noFs s2 (("options=-NO_TLSv1").data))).map
        (fun s => s.parsedOptions)
      = some SSL_OP_NO_SSLv2 := by
  decide

/-- C3 counterexample: after `options=NO_TLSv1,NO_TLSv1_1` followed by
`options=+NO_TLSv1_2`, the `NO_TLSv1` bit is NOT set (the second directive
replaced the first), refuting the claim that all three disable bits are
set at that point. -/
theorem C3_second_options_drops_bits :
    ((parse noFs initPeerOptions (("options=NO_TLSv1,NO_TLSv1_1").data)).bind
        (fun s1 => parse noFs s1 (("options=+NO_TLSv1_2").data))).map
        (fun s2 => s2.parsedOptions &&& SSL_OP_NO_TLSv1)
      = some 0
    ∧ SSL_OP_NO_TLSv1 ≠ 0 := by
  decide

/-- C4: for every backend and every options text on which `parseOptions`
returns (rather than aborting), every bit of the backend's
`SSL_OP_NO_SSLv2` mask is set in the result: the RFC 6176 floor is OR-ed
in after all user terms, so no input — including remove terms — can clear
it. (A backend without the bit has mask 0, for which the statement is
vacuous, mirroring the `#if`.) -/
theorem C4_forced_protocol_floor (b : Backend) (txt : List Char) (op : Nat)
    (h : parseOptions b txt = some op) : op &&& b.noSSLv2 = b.noSSLv2 := by
  unfold parseOptions at h
  cases e : optLoop b (txt.length + 1) txt 0 with
  | none => rw [e, Option.map_none'] at h; cases h
  | some op0 =>
    rw [e, Option.map_some'] at h
    obtain rfl := Option.some.inj h
    exact lor_land_self op0 b.noSSLv2

/-- C4 witness: the floor bit in the result of parsing the remove-term text
`-NO_SSLv3` on the OpenSSL backend, via `C4_forced_protocol_floor`. -/
theorem C4_forced_protocol_floor_witness :
    (0x01000000 : Nat) &&& openssl102.noSSLv2 = openssl102.noSSLv2 :=
  C4_forced_protocol_floor openssl102 (("-NO_SSLv3").data) 0x01000000 (by decide)

/-- The legacy disable-list text the `sslVersion = 4` case appends. -/
def legacyAddV4 : List Char := ("NO_SSLv3,NO_TLSv1_1,NO_TLSv1_2").data

/-- C5: with `tlsMinVersion` unset and legacy `sslVersion = 4`, one
`updateTlsVersionLimits` call appends `NO_SSLv3,NO_TLSv1_1,NO_TLSv1_2` to
`sslOptions` (with a `','` separator exactly when `sslOptions` was
non-empty), zeroes `sslVersion`, touches no other field, and a second call
changes nothing (the path self-disarms). -/
theorem C5_legacy_version4 (s : PeerOptions)
    (h1 : s.tlsMinVersion = []) (h2 : s.sslVersion = 4) :
    updateTlsVersionLimits s
      = { s with
          sslOptions := if s.sslOptions = [] then legacyAddV4
                        else s.sslOptions ++ ',' :: legacyAddV4
          sslVersion := 0 }
    ∧ updateTlsVersionLimits (updateTlsVersionLimits s) = updateTlsVersionLimits s := by
  obtain ⟨o, cd, cf, sc, sf, sd, po, pf, ce, caf, pc, sv, tmv, et, fl⟩ := s
  obtain rfl : tmv = [] := h1
  obtain rfl : sv = 4 := h2
  exact ⟨rfl, rfl⟩

/-- C5 witness: `C5_legacy_version4` on a fresh entity with
`sslVersion = 4`. -/
theorem C5_legacy_version4_witness :
    updateTlsVersionLimits { initPeerOptions with sslVersion := 4 }
      = { { initPeerOptions with sslVersion := 4 } with
          sslOptions := if ({ initPeerOptions with sslVersion := 4 } : PeerOptions).sslOptions = []
                        then legacyAddV4
                        else ({ initPeerOptions with sslVersion := 4 } : PeerOptions).sslOptions
                          ++ ',' :: legacyAddV4
          sslVersion := 0 }
    ∧ updateTlsVersionLimits (updateTlsVersionLimits { initPeerOptions with sslVersion := 4 })
        = updateTlsVersionLimits { initPeerOptions with sslVersion := 4 } :=
  C5_legacy_version4 { initPeerOptions with sslVersion := 4 } rfl rfl

/-- C6 (amended): the minimum-version branch requires `tlsMinVersion` to
begin with `1.` followed by one decimal digit at most 3; it reads exactly
one digit and ignores anything after it. `1.1` ORs exactly `NO_TLSv1` into
`parsedOptions` (the disable bits for versions strictly below 1.1), `1.9`
fails the `v <= 3` test and leaves the entity unchanged, `1.2<anything>`
behaves as `1.2`, and any text `minVerParse` rejects leaves the entity
unchanged. -/
theorem C6_min_version_floor :
    (∀ s : PeerOptions, s.tlsMinVersion = ("1.1").data →
      updateTlsVersionLimits s
        = { s with parsedOptions := s.parsedOptions ||| SSL_OP_NO_TLSv1 })
    ∧ (∀ s : PeerOptions, s.tlsMinVersion = ("1.9").data → updateTlsVersionLimits s = s)
    ∧ (∀ (s : PeerOptions) (rest : List Char), s.tlsMinVersion = '1' :: '.' :: '2' :: rest →
      updateTlsVersionLimits s
        = { s with
            parsedOptions := s.parsedOptions ||| SSL_OP_NO_TLSv1 ||| SSL_OP_NO_TLSv1_1 })
    ∧ (∀ s : PeerOptions, s.tlsMinVersion ≠ [] → minVerParse s.tlsMinVersion = none →
      updateTlsVersionLimits s = s) := by
  refine ⟨?_, ?_, ?_, ?_⟩
  · intro s h
    obtain ⟨o, cd, cf, sc, sf, sd, po, pf, ce, caf, pc, sv, tmv, et, fl⟩ := s
    obtain rfl : tmv = ("1.1").data := h
    rfl
  · intro s h
    obtain ⟨o, cd, cf, sc, sf, sd, po, pf, ce, caf, pc, sv, tmv, et, fl⟩ := s
    obtain rfl : tmv = ("1.9").data := h
    rfl
  · intro s rest h
    obtain ⟨o, cd, cf, sc, sf, sd, po, pf, ce, caf, pc, sv, tmv, et, fl⟩ := s
    obtain rfl : tmv = '1' :: '.' :: '2' :: rest := h
    rfl
  · intro s h1 h2
    unfold updateTlsVersionLimits
    rw [if_pos h1, h2]

/-- C6 witness: `C6_min_version_floor` applied to `min-version=1.1` text on
a fresh entity. -/
theorem C6_min_version_floor_witness :
    updateTlsVersionLimits { initPeerOptions with tlsMinVersion := ("1.1").data }
      = { { initPeerOptions with tlsMinVersion := ("1.1").data } with
          parsedOptions :=
            ({ initPeerOptions with tlsMinVersion := ("1.1").data } : PeerOptions).parsedOptions
              ||| SSL_OP_NO_TLSv1 } :=
  C6_min_version_floor.1 { initPeerOptions with tlsMinVersion := ("1.1").data } rfl

/-- C6 counterexample: `tlsMinVersion = "1.23"` is not of the form `1.N`
with `N` an integer in 0..3, so the claim requires `parsedOptions` to stay
unchanged; the code reads only the first digit, accepts it as `1.2`, and
ORs `NO_TLSv1 ||| NO_TLSv1_1` into the previously-zero `parsedOptions`. -/
theorem C6_trailing_digits_not_rejected :
    (updateTlsVersionLimits { initPeerOptions with tlsMinVersion := ("1.23").data }).parsedOptions
      = SSL_OP_NO_TLSv1 ||| SSL_OP_NO_TLSv1_1
    ∧ ({ initPeerOptions with tlsMinVersion := ("1.23").data } : PeerOptions).parsedOptions = 0
    ∧ SSL_OP_NO_TLSv1 ||| SSL_OP_NO_TLSv1_1 ≠ 0 := by
  decide

/-- C7 (amended): the trust-configuration call trace is one
`loadVerifyLocations` per `caFiles` entry — each passing `caDir` alongside
that entry, the only way `caDir` reaches the backend — followed by the
system trust store exactly when `flags.tlsDefaultCa` is set. The trace is
the same for every failure oracle: a failing step is only logged and every
subsequent step still runs. With `caFiles` empty the loop body never runs,
so `caDir` is never applied. -/
theorem C7_trust_application_trace (fail : CaCall → Bool) (s : PeerOptions) :
    (updateContextCa fail s).1
      = s.caFiles.map (fun f => CaCall.loadVerifyLocations f s.caDir)
        ++ (if s.flags.tlsDefaultCa then [CaCall.setDefaultVerifyPaths] else []) := by
  have hloop : ∀ l : List (List Char),
      (caFilesLoop fail s.caDir l).1
        = l.map (fun f => CaCall.loadVerifyLocations f s.caDir) := by
    intro l
    induction l with
    | nil => rfl
    | cons f rest ih => simp only [caFilesLoop, List.map_cons, ih]
  cases hca : s.flags.tlsDefaultCa <;>
    simp [updateContextCa, hca, hloop]

/-- C7 counterexample: a fresh entity given only `capath=/capath`
(non-empty `caDir`, empty `caFiles`, default trust on) produces a trace
consisting solely of the system-trust-store step: no emitted call carries
`/capath`, refuting the claim that a non-empty `caDir` is applied even
when `caFiles` is empty. -/
theorem C7_capath_dropped_without_cafile :
    (updateContextCa (fun _ => false) { initPeerOptions with caDir := ("/capath").data }).1
      = [CaCall.setDefaultVerifyPaths]
    ∧ ((updateContextCa (fun _ => false)
          { initPeerOptions with caDir := ("/capath").data }).1.any
        (usesCaDir ("/capath").data)) = false
    ∧ ("/capath").data ≠ [] := by
  decide

/-- C8: `cert=/a.pem` then `key=/a.key` on a fresh entity yields exactly
one credential with that certificate and key; `key=` with no credential
entry at all, or with a most-recent credential whose certificate path is
empty, logs, creates nothing, and returns the entity entirely unchanged
(including `encryptTransport`). -/
theorem C8_cert_key_pairing :
    ((parse noFs initPeerOptions (("cert=/a.pem").data)).bind
        (fun s1 => parse noFs s1 (("key=/a.key").data))).map (fun s2 => s2.certs)
      = some [⟨("/a.pem").data, ("/a.key").data⟩]
    ∧ (∀ (fs : List Char → Option (List Nat)) (s : PeerOptions) (path : List Char),
        s.certs = [] → parse fs s (("key=").data ++ path) = some s)
    ∧ (∀ (fs : List Char → Option (List Nat)) (s : PeerOptions) (pre : List KeyData)
        (t : KeyData) (path : List Char),
        s.certs = pre ++ [t] → t.certFile = [] →
        parse fs s (("key=").data ++ path) = some s) := by
  refine ⟨by decide, ?_, ?_⟩
  · intro fs s path h
    have hd : parse fs s (("key=").data ++ path)
        = (if s.certs = [] ∨ (s.certs.getLastD ⟨[], []⟩).certFile = [] then some s
           else
             some { s with
                    certs := s.certs.dropLast
                      ++ [{ s.certs.getLastD ⟨[], []⟩ with privateKeyFile := path }],
                    encryptTransport := true }) := rfl
    rw [hd, if_pos (Or.inl h)]
  · intro fs s pre t path h ht
    have hd : parse fs s (("key=").data ++ path)
        = (if s.certs = [] ∨ (s.certs.getLastD ⟨[], []⟩).certFile = [] then some s
           else
             some { s with
                    certs := s.certs.dropLast
                      ++ [{ s.certs.getLastD ⟨[], []⟩ with privateKeyFile := path }],
                    encryptTransport := true }) := rfl
    rw [hd, if_pos (Or.inr (by rw [h, List.getLastD_concat]; exact ht))]

/-- C8 witness: `C8_cert_key_pairing` applied to `key=/x.key` on the fresh
entity, whose credential list is empty. -/
theorem C8_cert_key_pairing_witness :
    parse noFs initPeerOptions (("key=").data ++ ("/x.key").data) = some initPeerOptions :=
  C8_cert_key_pairing.2.1 noFs initPeerOptions (("/x.key").data) rfl

/-- C9: `loadCrlFile` replaces `parsedCrl` wholesale — with `[]` when the
path is empty or the file cannot be opened (logged, never fatal: the
function is total), and with exactly the records the reader yields
otherwise; in particular a 3-record file loads exactly 3 entries, a
0-record file loads none, and a previously non-empty list is cleared on an
unreadable path. -/
theorem C9_crl_loading (fs : List Char → Option (List Nat)) (s : PeerOptions) :
    loadCrlFile fs s
      = { s with parsedCrl := if s.crlFile = [] then [] else (fs s.crlFile).getD [] }
    ∧ (loadCrlFile (fun _ => some [1, 2, 3])
        { initPeerOptions with crlFile := ("/crl.pem").data }).parsedCrl.length = 3
    ∧ (loadCrlFile (fun _ => some [])
        { initPeerOptions with crlFile := ("/crl.pem").data }).parsedCrl = []
    ∧ (loadCrlFile (fun _ => none)
        { s with crlFile := ("/crl.pem").data, parsedCrl := [7] }).parsedCrl = [] := by
  obtain ⟨o, cd, cf, sc, sf, sd, po, pf, ce, caf, pc, sv, tmv, et, fl⟩ := s
  refine ⟨?_, by decide, rfl, rfl⟩
  unfold loadCrlFile
  by_cases hcf : cf = []
  · subst hcf
    rfl
  · rw [if_neg hcf]
    show _ = { PeerOptions.mk o cd cf sc sf sd po pf ce caf pc sv tmv et fl with
               parsedCrl := if cf = [] then [] else (fs cf).getD [] }
    rw [if_neg hcf]
    cases hfs : fs cf with
    | none => rfl
    | some recs => rfl

/-- C10: directive recognition is by leading-`strncmp` only: appending any
characters to `disable`, `no-default-ca` or `no-npn` still selects that
directive (reset-to-defaults, clearing `flags.tlsDefaultCa`, and clearing
`flags.tlsNpn` respectively, the latter two also enabling TLS), never the
unknown-token path. -/
theorem C10_leading_text_matching (fs : List Char → Option (List Nat)) (s : PeerOptions)
    (rest : List Char) :
    parse fs s (("disable").data ++ rest) = some clearState
    ∧ parse fs s (("no-default-ca").data ++ rest)
        = some { s with
                 flags := { s.flags with tlsDefaultCa := false }, encryptTransport := true }
    ∧ parse fs s (("no-npn").data ++ rest)
        = some { s with
                 flags := { s.flags with tlsNpn := false }, encryptTransport := true } :=
  ⟨rfl, rfl, rfl⟩

end Security

